import Mathlib

/-!
Verification of the Neon Lane game loop.

This file gives a shallow embedding of the simulation part of
src/src/App.tsx (a three-lane dodging game) and proves the documented
properties of that code.  JavaScript numbers are modelled as rationals,
machine floats carrying exact decimal constants (0.98 becomes 49/50 and
so on).  The per-frame callback named loop in the source is modelled as
a pure function from the game state, the raw frame delta and the two
random draws of a potential spawn to a frame result: the next state, a
flag for rendering, a flag for rescheduling, and the value written to
persistent storage this frame (if any).
-/

namespace NeonLane

/-- Game width in pixels (App.tsx line 11). -/
def CANVAS_W : ℚ := 360

/-- Game height in pixels (App.tsx line 12). -/
def CANVAS_H : ℚ := 640

/-- Number of lanes (App.tsx line 13). -/
def LANES : ℤ := 3

/-- Player radius (App.tsx line 14). -/
def PLAYER_R : ℚ := 14

/-- Fixed vertical position of the player (App.tsx line 15). -/
def PLAYER_Y : ℚ := CANVAS_H - 80

/-- Base obstacle speed in px per second (App.tsx line 16). -/
def BASE_SPEED : ℚ := 140

/-- Speed growth per second of elapsed time (App.tsx line 17). -/
def SPEED_GROWTH : ℚ := 6

/-- Initial seconds between spawns (App.tsx line 18). -/
def BASE_SPAWN : ℚ := 1

/-- Minimum seconds between spawns, 0.35 (App.tsx line 19). -/
def MIN_SPAWN : ℚ := 7/20

/-- Spawn interval decay per second of elapsed time, 0.04 (App.tsx line 20). -/
def SPAWN_DECAY : ℚ := 1/25

/-- clamp from App.tsx lines 27-29: Math.max(lo, Math.min(hi, n)). -/
def clamp (n lo hi : ℤ) : ℤ := max lo (min hi n)

/-- An obstacle (App.tsx lines 3-9): lane index, top position, width,
height, and the flag recording that it has already been scored. -/
structure Obstacle where
  lane : ℤ
  y : ℚ
  w : ℚ
  h : ℚ
  passed : Bool
deriving DecidableEq

/-- The mutable state the loop reads and writes: the React state cells
running, playerLane, score, best, and the refs obstaclesRef, speedRef,
spawnTimerRef, spawnIntervalRef, elapsedRef, deadRef
(App.tsx lines 34-48). -/
structure GameState where
  running : Bool
  playerLane : ℤ
  score : ℤ
  best : ℤ
  obstacles : List Obstacle
  speed : ℚ
  spawnTimer : ℚ
  spawnInterval : ℚ
  elapsed : ℚ
  dead : Bool
deriving DecidableEq

/-- Result of one invocation of the loop: the next state, whether the
frame was drawn, whether the loop rescheduled itself, and the value (if
any) written to localStorage this frame. -/
structure FrameResult where
  state : GameState
  rendered : Bool
  rescheduled : Bool
  persisted : Option ℤ
deriving DecidableEq

/-- spawnObstacle (App.tsx lines 84-89).  The draw r1 stands for the
Math.random() used for the lane, r2 for the one used for the height;
both range over the half-open unit interval. -/
def spawnObstacle (r1 r2 : ℚ) : Obstacle :=
  { lane := Int.floor (r1 * (LANES : ℚ))
    y := -(26 + r2 * 20)
    w := CANVAS_W / (LANES : ℚ) * (3/5)
    h := 26 + r2 * 20
    passed := false }

/-- The clamped frame delta dt = Math.min(0.05, raw) (App.tsx line 126). -/
def clampDt (dtRaw : ℚ) : ℚ := min (1/20) dtRaw

/-- Current speed as recomputed from elapsed time (App.tsx line 131). -/
def speedOf (elapsed : ℚ) : ℚ := BASE_SPEED + SPEED_GROWTH * elapsed

/-- Target spawn interval (App.tsx line 132). -/
def targetSpawn (elapsed : ℚ) : ℚ :=
  max MIN_SPAWN (BASE_SPAWN - SPAWN_DECAY * elapsed)

/-- Exponential smoothing of the spawn interval toward the target
(App.tsx line 134): 0.98 of the old value plus 0.02 of the target. -/
def nextInterval (si elapsed : ℚ) : ℚ :=
  si * (49/50) + targetSpawn elapsed * (1/50)

/-- Elapsed run time after the current frame (App.tsx line 128). -/
def simElapsed (s : GameState) (dtRaw : ℚ) : ℚ := s.elapsed + clampDt dtRaw

/-- The spawn interval in force for the spawn test of the current frame
(App.tsx line 134, computed before the test on line 138). -/
def simInterval (s : GameState) (dtRaw : ℚ) : ℚ :=
  nextInterval s.spawnInterval (simElapsed s dtRaw)

/-- The spawn test of App.tsx line 138: the accumulated timer has
reached the freshly smoothed interval. -/
def doSpawn (s : GameState) (dtRaw : ℚ) : Bool :=
  decide (simInterval s dtRaw ≤ s.spawnTimer + clampDt dtRaw)

/-- Obstacle pool after the spawn phase (App.tsx lines 137-141): at most
one obstacle is pushed at the end of the array. -/
def spawnedObs (s : GameState) (dtRaw r1 r2 : ℚ) : List Obstacle :=
  if doSpawn s dtRaw then s.obstacles ++ [spawnObstacle r1 r2] else s.obstacles

/-- Movement and scoring of one obstacle (App.tsx lines 145-153): the
obstacle advances by speed times dt, and if it was not yet passed and
its lower edge now reaches the player line it becomes passed; the
boolean reports whether the score was incremented for it. -/
def moveScore (speed dt : ℚ) (o : Obstacle) : Obstacle × Bool :=
  let y2 := o.y + speed * dt
  if o.passed = false ∧ PLAYER_Y ≤ y2 + o.h then
    ({ o with y := y2, passed := true }, true)
  else
    ({ o with y := y2 }, false)

/-- The obstacle pool after movement and scoring, paired with the
per-obstacle score flags (App.tsx lines 143-153). -/
def movedObs (s : GameState) (dtRaw r1 r2 : ℚ) : List (Obstacle × Bool) :=
  (spawnedObs s dtRaw r1 r2).map
    (moveScore (speedOf (simElapsed s dtRaw)) (clampDt dtRaw))

/-- Removal of off-screen obstacles (App.tsx line 156): keep exactly
those with y below CANVAS_H + h. -/
def removeOffscreen (obs : List Obstacle) : List Obstacle :=
  obs.filter (fun o => decide (o.y < CANVAS_H + o.h))

/-- Vertical overlap test of App.tsx line 165 between the player span
and one obstacle span. -/
def overlapsPlayer (o : Obstacle) : Bool :=
  !(decide (PLAYER_Y + PLAYER_R < o.y) || decide (PLAYER_Y - PLAYER_R > o.y + o.h))

/-- Collision test for one obstacle (App.tsx lines 160-166): same lane
as the player and vertical overlap. -/
def collides (playerLane : ℤ) (o : Obstacle) : Bool :=
  (o.lane == playerLane) && overlapsPlayer o

/-- The simulation part of the loop, App.tsx lines 124-156: timing,
difficulty ramp, spawn, movement and scoring, off-screen removal. -/
def simStep (s : GameState) (dtRaw r1 r2 : ℚ) : GameState :=
  { s with
    elapsed := simElapsed s dtRaw
    speed := speedOf (simElapsed s dtRaw)
    spawnInterval := simInterval s dtRaw
    spawnTimer := if doSpawn s dtRaw then 0 else s.spawnTimer + clampDt dtRaw
    score := s.score + ((movedObs s dtRaw r1 r2).countP Prod.snd : ℤ)
    obstacles := removeOffscreen ((movedObs s dtRaw r1 r2).map Prod.fst) }

/-- The collision phase of the loop, App.tsx lines 158-175.  If some
remaining obstacle collides, the run dies, running stops, and the best
is raised to the maximum of the stored best and the score; that value is
also written to storage.  The score read at App.tsx line 169 is the
React closure constant score, which cannot see the setScore functional
updates queued at line 151 during the same invocation; it is therefore
the pre-frame score, passed in here as closureScore.  The score cell of
the state itself does include the queued increments once React flushes
them, so the final score of the run can exceed closureScore. -/
def collisionStep (closureScore : ℤ) (s : GameState) : GameState × Option ℤ :=
  if s.obstacles.any (collides s.playerLane) then
    ({ s with dead := true, running := false, best := max s.best closureScore },
     some (max s.best closureScore))
  else (s, none)

/-- One invocation of loop (App.tsx lines 113-179).  When not running or
already dead it only draws and reschedules (lines 118-122); otherwise it
runs the simulation, the collision check, draws and reschedules.  The
collision phase receives the pre-frame score s.score, because the
closure constant it reads at line 169 excludes the increments queued at
line 151 in this same invocation. -/
def loop (s : GameState) (dtRaw r1 r2 : ℚ) : FrameResult :=
  if !s.running || s.dead then
    { state := s, rendered := true, rescheduled := true, persisted := none }
  else
    { state := (collisionStep s.score (simStep s dtRaw r1 r2)).1
      rendered := true
      rescheduled := true
      persisted := (collisionStep s.score (simStep s dtRaw r1 r2)).2 }

/-- restart (App.tsx lines 91-102). -/
def restart (s : GameState) : GameState :=
  { s with
    obstacles := []
    speed := BASE_SPEED
    spawnInterval := BASE_SPAWN
    spawnTimer := 0
    elapsed := 0
    dead := false
    score := 0
    running := true }

/-- The state at component mount (App.tsx lines 34-48), with the best
score b read from storage. -/
def initState (b : ℤ) : GameState :=
  { running := true
    playerLane := 1
    score := 0
    best := b
    obstacles := []
    speed := BASE_SPEED
    spawnTimer := 0
    spawnInterval := BASE_SPAWN
    elapsed := 0
    dead := false }

/-- A lane-change input: the decrement (left half tap, ArrowLeft, a) or
the increment (right half tap, ArrowRight, d). -/
inductive LaneInput where
  | left
  | right
deriving DecidableEq

/-- Effect of one lane-change input on the lane (App.tsx lines 57-61 and
70-73): decrement or increment clamped to the range 0 to LANES - 1. -/
def applyInput (l : ℤ) : LaneInput → ℤ
  | LaneInput.left => clamp (l - 1) 0 (LANES - 1)
  | LaneInput.right => clamp (l + 1) 0 (LANES - 1)

/-- Effect of a whole sequence of lane-change inputs. -/
def applyInputs (l : ℤ) (inputs : List LaneInput) : ℤ :=
  inputs.foldl applyInput l

/-- Model of the JavaScript parseInt applied to a base-ten string: skip
leading whitespace, read an optional sign, then the longest prefix of
decimal digits; no digits means NaN, modelled as none.  (The hexadecimal
0x prefix of parseInt is not modelled; the game only stores decimal
numerals.) -/
def parseDigits (cs : List Char) : Option ℕ :=
  let ds := cs.takeWhile Char.isDigit
  if ds.isEmpty then none
  else some (ds.foldl (fun acc c => acc * 10 + (c.toNat - 48)) 0)

/-- See parseDigits: the signed entry point. -/
def parseIntJS (v : String) : Option ℤ :=
  match v.data.dropWhile Char.isWhitespace with
  | [] => none
  | c :: rest =>
    if c = '-' then (parseDigits rest).map (fun n => -(n : ℤ))
    else if c = '+' then (parseDigits rest).map (fun n => (n : ℤ))
    else (parseDigits (c :: rest)).map (fun n => (n : ℤ))

/-- The initializer of the best state (App.tsx lines 37-40):
localStorage.getItem gives either nothing or a string; a missing or
empty (falsy) string yields 0, anything else is fed to parseInt, whose
NaN outcome is modelled as none. -/
def initBest (stored : Option String) : Option ℤ :=
  match stored with
  | none => some 0
  | some v => if v = "" then some 0 else parseIntJS v

theorem simStep_best (s : GameState) (dtRaw r1 r2 : ℚ) :
    (simStep s dtRaw r1 r2).best = s.best := rfl

theorem simStep_dead (s : GameState) (dtRaw r1 r2 : ℚ) :
    (simStep s dtRaw r1 r2).dead = s.dead := rfl

theorem simStep_running (s : GameState) (dtRaw r1 r2 : ℚ) :
    (simStep s dtRaw r1 r2).running = s.running := rfl

theorem simStep_playerLane (s : GameState) (dtRaw r1 r2 : ℚ) :
    (simStep s dtRaw r1 r2).playerLane = s.playerLane := rfl

theorem simStep_elapsed (s : GameState) (dtRaw r1 r2 : ℚ) :
    (simStep s dtRaw r1 r2).elapsed = simElapsed s dtRaw := rfl

theorem simStep_speed (s : GameState) (dtRaw r1 r2 : ℚ) :
    (simStep s dtRaw r1 r2).speed = speedOf (simElapsed s dtRaw) := rfl

theorem simStep_spawnInterval (s : GameState) (dtRaw r1 r2 : ℚ) :
    (simStep s dtRaw r1 r2).spawnInterval = simInterval s dtRaw := rfl

theorem simStep_obstacles (s : GameState) (dtRaw r1 r2 : ℚ) :
    (simStep s dtRaw r1 r2).obstacles =
      removeOffscreen ((movedObs s dtRaw r1 r2).map Prod.fst) := rfl

theorem simStep_score (s : GameState) (dtRaw r1 r2 : ℚ) :
    (simStep s dtRaw r1 r2).score =
      s.score + ((movedObs s dtRaw r1 r2).countP Prod.snd : ℤ) := rfl

theorem collisionStep_hit (c : ℤ) (s : GameState)
    (h : s.obstacles.any (collides s.playerLane) = true) :
    collisionStep c s =
      ({ s with dead := true, running := false, best := max s.best c },
       some (max s.best c)) := by
  simp [collisionStep, h]

theorem collisionStep_miss (c : ℤ) (s : GameState)
    (h : s.obstacles.any (collides s.playerLane) = false) :
    collisionStep c s = (s, none) := by
  simp [collisionStep, h]

theorem collisionStep_dead_iff (c : ℤ) (s : GameState) (hd : s.dead = false) :
    ((collisionStep c s).1.dead = true ↔
      s.obstacles.any (collides s.playerLane) = true) ∧
    (collisionStep c s).1.obstacles = s.obstacles := by
  cases hb : s.obstacles.any (collides s.playerLane)
  · rw [collisionStep_miss c s hb]
    exact ⟨by simp [hd], rfl⟩
  · rw [collisionStep_hit c s hb]
    exact ⟨by simp, rfl⟩

theorem loop_skip (s : GameState) (dtRaw r1 r2 : ℚ)
    (h : s.running = false ∨ s.dead = true) :
    loop s dtRaw r1 r2 =
      { state := s, rendered := true, rescheduled := true, persisted := none } := by
  rcases h with h | h <;> simp [loop, h]

theorem loop_sim (s : GameState) (dtRaw r1 r2 : ℚ)
    (hr : s.running = true) (hd : s.dead = false) :
    loop s dtRaw r1 r2 =
      { state := (collisionStep s.score (simStep s dtRaw r1 r2)).1
        rendered := true
        rescheduled := true
        persisted := (collisionStep s.score (simStep s dtRaw r1 r2)).2 } := by
  simp [loop, hr, hd]

theorem collides_iff (pl : ℤ) (o : Obstacle) :
    collides pl o = true ↔
      o.lane = pl ∧ o.y ≤ PLAYER_Y + PLAYER_R ∧ PLAYER_Y - PLAYER_R ≤ o.y + o.h := by
  simp [collides, overlapsPlayer, not_lt]

/-- C5: On a frame invocation where the run is paused or the run has
ended (dead), the simulation state (elapsed time, speed, spawn interval,
spawn timer, obstacle list, score) is left unchanged; the frame is still
rendered and the loop reschedules itself. -/
theorem paused_or_dead_frame_skips_sim (s : GameState) (dtRaw r1 r2 : ℚ)
    (h : s.running = false ∨ s.dead = true) :
    loop s dtRaw r1 r2 =
      { state := s, rendered := true, rescheduled := true, persisted := none } := by
  rcases h with h | h <;> simp [loop, h]

/-- Witness for C5: a concrete paused frame leaves everything unchanged
while rendering and rescheduling. -/
theorem paused_or_dead_frame_skips_sim_witness :
    loop { initState 3 with running := false } 1 (1/2) (1/2) =
      { state := { initState 3 with running := false }
        rendered := true
        rescheduled := true
        persisted := none } :=
  paused_or_dead_frame_skips_sim _ 1 (1/2) (1/2) (Or.inl rfl)

/-- The concrete frame on which the run both scores and dies: during
one frame of 0.05 seconds the lane-0 obstacle crosses the player line
(scoring one point) while the lane-1 obstacle, the player lane, enters
the player span (ending the run); stored best 0, pre-frame score 0. -/
def deathFrameState : GameState :=
  { initState 0 with
    obstacles := [⟨0, 528, 72, 30, false⟩, ⟨1, 520, 72, 30, false⟩] }

theorem deathFrame_doSpawn : doSpawn deathFrameState (1/20) = false := by
  rw [doSpawn, decide_eq_false_iff_not]
  norm_num [simInterval, nextInterval, targetSpawn, simElapsed, clampDt,
    deathFrameState, initState, MIN_SPAWN, BASE_SPAWN, SPAWN_DECAY, min_def]

theorem deathFrame_moved :
    movedObs deathFrameState (1/20) 0 0 =
      [(⟨0, 107003/200, 72, 30, true⟩, true),
       (⟨1, 105403/200, 72, 30, false⟩, false)] := by
  rw [movedObs, spawnedObs, deathFrame_doSpawn]
  norm_num [moveScore, deathFrameState, initState, speedOf, simElapsed, clampDt,
    BASE_SPEED, SPEED_GROWTH, PLAYER_Y, CANVAS_H, min_def, List.map]

theorem deathFrame_obstacles :
    (simStep deathFrameState (1/20) 0 0).obstacles =
      [⟨0, 107003/200, 72, 30, true⟩, ⟨1, 105403/200, 72, 30, false⟩] := by
  rw [simStep_obstacles, deathFrame_moved]
  norm_num [removeOffscreen, List.filter, CANVAS_H]

theorem deathFrame_score : (simStep deathFrameState (1/20) 0 0).score = 1 := by
  rw [simStep_score, deathFrame_moved]
  norm_num [deathFrameState, initState, List.countP, List.countP.go]

theorem deathFrame_any :
    (simStep deathFrameState (1/20) 0 0).obstacles.any
      (collides (simStep deathFrameState (1/20) 0 0).playerLane) = true := by
  rw [deathFrame_obstacles, simStep_playerLane]
  norm_num [List.any, collides, overlapsPlayer, deathFrameState, initState,
    PLAYER_Y, PLAYER_R, CANVAS_H]

/-- C1 fails on the code: the collision handler (App.tsx line 169) reads
the React closure constant score, which excludes the setScore increment
queued at line 151 during the same invocation.  On this frame the run
ends with final score 1 and previous best 0, yet the stored best is 0,
not max(0, 1) = 1. -/
theorem best_final_score_counterexample :
    (loop deathFrameState (1/20) 0 0).state.dead = true ∧
    (loop deathFrameState (1/20) 0 0).state.score = 1 ∧
    (loop deathFrameState (1/20) 0 0).state.best = 0 ∧
    (loop deathFrameState (1/20) 0 0).persisted = some 0 ∧
    (loop deathFrameState (1/20) 0 0).state.best ≠
      max deathFrameState.best
        ((loop deathFrameState (1/20) 0 0).state.score) := by
  rw [loop_sim deathFrameState (1/20) 0 0 rfl rfl,
    collisionStep_hit deathFrameState.score _ deathFrame_any]
  dsimp only
  rw [simStep_best, deathFrame_score]
  refine ⟨rfl, rfl, ?_, ?_, ?_⟩ <;> norm_num [deathFrameState, initState]

/-- C1 amended: when a run ends (the collision check marks the run
dead), the stored best score is updated to the maximum of the previously
stored best and the score the collision handler reads, which is the
pre-frame score, excluding any obstacle scored during the dying frame
itself; frames that do not end the run, and restart, leave the best
unchanged, so the best never decreases across runs. -/
theorem best_update_on_run_end (s : GameState) (dtRaw r1 r2 : ℚ)
    (hr : s.running = true) (hd : s.dead = false) :
    ((loop s dtRaw r1 r2).state.dead = true →
      (loop s dtRaw r1 r2).state.best = max s.best s.score) ∧
    ((loop s dtRaw r1 r2).state.dead = false →
      (loop s dtRaw r1 r2).state.best = s.best) ∧
    s.best ≤ (loop s dtRaw r1 r2).state.best ∧
    (restart s).best = s.best := by
  rw [loop_sim s dtRaw r1 r2 hr hd]
  dsimp only
  cases hb : (simStep s dtRaw r1 r2).obstacles.any
      (collides (simStep s dtRaw r1 r2).playerLane)
  · rw [collisionStep_miss _ _ hb]
    refine ⟨?_, fun _ => rfl, ?_, rfl⟩
    · intro hdd
      rw [simStep_dead, hd] at hdd
      simp at hdd
    · rw [simStep_best]
  · rw [collisionStep_hit _ _ hb]
    refine ⟨fun _ => rfl, ?_, ?_, rfl⟩
    · intro hdd
      simp at hdd
    · dsimp only
      rw [simStep_best]
      exact le_max_left _ _

/-- Witness for the amended C1: at a concrete colliding state with
stored best 7 and score 0, the best never decreases. -/
theorem best_update_on_run_end_witness :
    ({ initState 7 with
        obstacles := [⟨1, 550, 72, 30, true⟩] } : GameState).best ≤
      (loop { initState 7 with obstacles := [⟨1, 550, 72, 30, true⟩] }
        0 0 0).state.best :=
  (best_update_on_run_end _ 0 0 0 rfl rfl).2.2.1

/-- C2: For every frame, a collision (transition to the dead state) is
detected if and only if some active obstacle has the same lane index as
the current lane of the player and the obstacle vertical interval from
top to top + height meets the player vertical interval from
PLAYER_Y - PLAYER_R to PLAYER_Y + PLAYER_R; no obstacle in a different
lane causes a collision regardless of vertical overlap. -/
theorem collision_iff_same_lane_overlap (s : GameState) (dtRaw r1 r2 : ℚ)
    (hr : s.running = true) (hd : s.dead = false) :
    (loop s dtRaw r1 r2).state.dead = true ↔
      ∃ o ∈ (loop s dtRaw r1 r2).state.obstacles,
        o.lane = s.playerLane ∧
        o.y ≤ PLAYER_Y + PLAYER_R ∧ PLAYER_Y - PLAYER_R ≤ o.y + o.h := by
  rw [loop_sim s dtRaw r1 r2 hr hd]
  dsimp only
  have hX : (simStep s dtRaw r1 r2).dead = false := by rw [simStep_dead]; exact hd
  obtain ⟨h1, h2⟩ := collisionStep_dead_iff s.score _ hX
  rw [h2, h1, simStep_playerLane]
  simp only [List.any_eq_true]
  constructor
  · rintro ⟨o, ho, hc⟩
    exact ⟨o, ho, (collides_iff _ _).mp hc⟩
  · rintro ⟨o, ho, hc⟩
    exact ⟨o, ho, (collides_iff _ _).mpr hc⟩

/-- Witness for C2: at a concrete state with one obstacle straddling the
player line in the player lane, the collision test fires. -/
theorem collision_iff_same_lane_overlap_witness :
    (loop { initState 7 with obstacles := [⟨1, 550, 72, 30, true⟩] }
        0 0 0).state.dead = true ↔
      ∃ o ∈ (loop { initState 7 with obstacles := [⟨1, 550, 72, 30, true⟩] }
          0 0 0).state.obstacles,
        o.lane = ({ initState 7 with
          obstacles := [⟨1, 550, 72, 30, true⟩] } : GameState).playerLane ∧
        o.y ≤ PLAYER_Y + PLAYER_R ∧ PLAYER_Y - PLAYER_R ≤ o.y + o.h :=
  collision_iff_same_lane_overlap _ 0 0 0 rfl rfl

theorem targetSpawn_antitone {e1 e2 : ℚ} (h : e1 ≤ e2) :
    targetSpawn e2 ≤ targetSpawn e1 := by
  unfold targetSpawn
  refine max_le_max le_rfl ?_
  unfold SPAWN_DECAY
  linarith

theorem MIN_SPAWN_le_targetSpawn (e : ℚ) : MIN_SPAWN ≤ targetSpawn e :=
  le_max_left _ _

theorem speedOf_mono {e1 e2 : ℚ} (h : e1 ≤ e2) : speedOf e1 ≤ speedOf e2 := by
  unfold speedOf SPEED_GROWTH
  linarith

theorem clampDt_nonneg {dtRaw : ℚ} (h : 0 ≤ dtRaw) : 0 ≤ clampDt dtRaw :=
  le_min (by norm_num) h

theorem nextInterval_le {si e : ℚ} (h : targetSpawn e ≤ si) :
    nextInterval si e ≤ si := by
  unfold nextInterval
  linarith

theorem le_nextInterval {si e : ℚ} (h : targetSpawn e ≤ si) :
    targetSpawn e ≤ nextInterval si e := by
  unfold nextInterval
  linarith

theorem collisionStep_fst_elapsed (c : ℤ) (s : GameState) :
    (collisionStep c s).1.elapsed = s.elapsed := by
  unfold collisionStep
  split <;> rfl

theorem collisionStep_fst_speed (c : ℤ) (s : GameState) :
    (collisionStep c s).1.speed = s.speed := by
  unfold collisionStep
  split <;> rfl

theorem collisionStep_fst_spawnInterval (c : ℤ) (s : GameState) :
    (collisionStep c s).1.spawnInterval = s.spawnInterval := by
  unfold collisionStep
  split <;> rfl

theorem collisionStep_fst_obstacles (c : ℤ) (s : GameState) :
    (collisionStep c s).1.obstacles = s.obstacles := by
  unfold collisionStep
  split <;> rfl

theorem collisionStep_fst_score (c : ℤ) (s : GameState) :
    (collisionStep c s).1.score = s.score := by
  unfold collisionStep
  split <;> rfl

/-- The reachability invariant of the difficulty ramp: the smoothed
spawn interval never sits below the current target, and the speed cell
agrees with the recomputed speed.  It holds at mount, is restored by
restart, and is preserved by every frame. -/
def RampInv (s : GameState) : Prop :=
  targetSpawn s.elapsed ≤ s.spawnInterval ∧ s.speed = speedOf s.elapsed

/-- C3: Across any sequence of frame updates, the current speed is a
non-decreasing function of elapsed run time, and the active spawn
interval is non-increasing from one frame to the next and never drops
below MIN_SPAWN (0.35 seconds).  Stated for one frame together with
preservation of the invariant, which holds at mount and after restart,
so the monotonicity follows for every sequence of frames. -/
theorem difficulty_ramp_monotone (s : GameState) (dtRaw r1 r2 : ℚ)
    (hInv : RampInv s) (hdt : 0 ≤ dtRaw) :
    s.elapsed ≤ (loop s dtRaw r1 r2).state.elapsed ∧
    s.speed ≤ (loop s dtRaw r1 r2).state.speed ∧
    (loop s dtRaw r1 r2).state.spawnInterval ≤ s.spawnInterval ∧
    MIN_SPAWN ≤ (loop s dtRaw r1 r2).state.spawnInterval ∧
    RampInv (loop s dtRaw r1 r2).state ∧
    RampInv (initState s.best) ∧
    RampInv (restart s) := by
  have hInit : RampInv (initState s.best) := by
    constructor
    · norm_num [targetSpawn, initState, MIN_SPAWN, BASE_SPAWN, SPAWN_DECAY]
    · norm_num [initState, speedOf, BASE_SPEED, SPEED_GROWTH]
  have hRes : RampInv (restart s) := by
    constructor
    · norm_num [targetSpawn, restart, MIN_SPAWN, BASE_SPAWN, SPAWN_DECAY]
    · norm_num [restart, speedOf, BASE_SPEED, SPEED_GROWTH]
  have hMin : MIN_SPAWN ≤ s.spawnInterval :=
    le_trans (MIN_SPAWN_le_targetSpawn _) hInv.1
  by_cases hrun : s.running = true ∧ s.dead = false
  · rw [loop_sim s dtRaw r1 r2 hrun.1 hrun.2]
    dsimp only
    have hdt2 : 0 ≤ clampDt dtRaw := clampDt_nonneg hdt
    have hee : s.elapsed ≤ simElapsed s dtRaw := by
      unfold simElapsed
      linarith
    have htg : targetSpawn (simElapsed s dtRaw) ≤ s.spawnInterval :=
      le_trans (targetSpawn_antitone hee) hInv.1
    refine ⟨?_, ?_, ?_, ?_, ?_, hInit, hRes⟩
    · rw [collisionStep_fst_elapsed, simStep_elapsed]
      exact hee
    · rw [collisionStep_fst_speed, simStep_speed, hInv.2]
      exact speedOf_mono hee
    · rw [collisionStep_fst_spawnInterval, simStep_spawnInterval]
      exact nextInterval_le htg
    · rw [collisionStep_fst_spawnInterval, simStep_spawnInterval]
      exact le_trans (MIN_SPAWN_le_targetSpawn _) (le_nextInterval htg)
    · constructor
      · rw [collisionStep_fst_spawnInterval, simStep_spawnInterval,
          collisionStep_fst_elapsed, simStep_elapsed]
        exact le_nextInterval htg
      · rw [collisionStep_fst_speed, simStep_speed,
          collisionStep_fst_elapsed, simStep_elapsed]
  · have hskip : s.running = false ∨ s.dead = true := by
      rcases Bool.eq_false_or_eq_true s.running with h | h
      · rcases Bool.eq_false_or_eq_true s.dead with h2 | h2
        · exact Or.inr h2
        · exact absurd ⟨h, h2⟩ hrun
      · exact Or.inl h
    rw [loop_skip s dtRaw r1 r2 hskip]
    exact ⟨le_rfl, le_rfl, le_rfl, hMin, hInv, hInit, hRes⟩

/-- Witness for C3: from the mount state, one one-second frame does not
decrease the elapsed time. -/
theorem difficulty_ramp_monotone_witness :
    (initState 0).elapsed ≤ (loop (initState 0) 1 0 0).state.elapsed :=
  (difficulty_ramp_monotone (initState 0) 1 0 0
    ⟨by norm_num [targetSpawn, initState, MIN_SPAWN, BASE_SPAWN, SPAWN_DECAY],
     by norm_num [initState, speedOf, BASE_SPEED, SPEED_GROWTH]⟩
    (by norm_num)).1

/-- C4: For every obstacle, its passed (scored) flag transitions from
false to true at most once over the obstacle lifetime, and the
transition happens exactly when the obstacle lower edge y + h first
reaches the fixed player vertical line PLAYER_Y; the score is
incremented by one at that transition and at no other time.  The last
conjunct records that the per-frame score increment is exactly the
number of obstacles whose flag made the transition this frame; the
biconditional under the reachability hypothesis (the flag agrees with
the lower edge having reached the line, which holds at spawn and is
preserved) states that the transition happens exactly at the first
frame where the lower edge reaches the line. -/
theorem passed_flag_transition (o : Obstacle) (speed dt : ℚ)
    (hsd : 0 ≤ speed * dt) :
    (moveScore speed dt o).1.y = o.y + speed * dt ∧
    (moveScore speed dt o).1.h = o.h ∧
    (o.passed = true →
      (moveScore speed dt o).1.passed = true ∧ (moveScore speed dt o).2 = false) ∧
    ((moveScore speed dt o).2 = true ↔
      o.passed = false ∧ PLAYER_Y ≤ o.y + speed * dt + o.h) ∧
    ((o.passed = true ↔ PLAYER_Y ≤ o.y + o.h) →
      (((moveScore speed dt o).2 = true ↔
        o.y + o.h < PLAYER_Y ∧ PLAYER_Y ≤ o.y + speed * dt + o.h) ∧
       ((moveScore speed dt o).1.passed = true ↔
        PLAYER_Y ≤ o.y + speed * dt + o.h))) ∧
    (∀ s dtRaw r3 r4, (simStep s dtRaw r3 r4).score =
      s.score + ((movedObs s dtRaw r3 r4).countP Prod.snd : ℤ)) := by
  obtain ⟨lane, y, w, h, passed⟩ := o
  refine ⟨?_, ?_, ?_, ?_, ?_, fun s dtRaw r3 r4 => rfl⟩ <;>
    cases passed <;>
      by_cases hP : PLAYER_Y ≤ y + speed * dt + h <;>
        simp [moveScore, hP]
  linarith [not_le.mp hP]

/-- Witness for C4: a concrete unscored obstacle advanced across the
player line. -/
theorem passed_flag_transition_witness :
    (moveScore 140 (1/2) ⟨0, 500, 72, 30, false⟩).1.y =
      (⟨0, 500, 72, 30, false⟩ : Obstacle).y + 140 * (1/2) :=
  (passed_flag_transition _ 140 (1/2) (by norm_num)).1

theorem simStep_spawnTimer (s : GameState) (dtRaw r1 r2 : ℚ) :
    (simStep s dtRaw r1 r2).spawnTimer =
      if doSpawn s dtRaw then 0 else s.spawnTimer + clampDt dtRaw := rfl

theorem spawnedObs_length (s : GameState) (dtRaw r1 r2 : ℚ) :
    (spawnedObs s dtRaw r1 r2).length ≤ s.obstacles.length + 1 := by
  unfold spawnedObs
  split
  · simp
  · exact Nat.le_succ _

/-- C10: In a single frame invocation, at most one obstacle is spawned,
no matter how large the (clamped) delta is or how far the spawn timer
exceeds the spawn interval; when a spawn occurs the spawn timer is reset
to exactly zero, discarding any excess accumulated time, and the new
obstacle has passed = false, lane among 0, 1, 2, and top position
y = -h, its own height above the visible area. -/
theorem spawn_at_most_one (s : GameState) (dtRaw r1 r2 : ℚ)
    (h1 : 0 ≤ r1) (h2 : r1 < 1) :
    (loop s dtRaw r1 r2).state.obstacles.length ≤ s.obstacles.length + 1 ∧
    (spawnedObs s dtRaw r1 r2).length ≤ s.obstacles.length + 1 ∧
    (doSpawn s dtRaw = true → (simStep s dtRaw r1 r2).spawnTimer = 0) ∧
    (doSpawn s dtRaw = false →
      (simStep s dtRaw r1 r2).spawnTimer = s.spawnTimer + clampDt dtRaw) ∧
    (spawnObstacle r1 r2).passed = false ∧
    0 ≤ (spawnObstacle r1 r2).lane ∧
    (spawnObstacle r1 r2).lane < LANES ∧
    (spawnObstacle r1 r2).y = -((spawnObstacle r1 r2).h) := by
  refine ⟨?_, spawnedObs_length s dtRaw r1 r2, ?_, ?_, rfl, ?_, ?_, rfl⟩
  · by_cases hrun : s.running = true ∧ s.dead = false
    · rw [loop_sim s dtRaw r1 r2 hrun.1 hrun.2]
      dsimp only
      rw [collisionStep_fst_obstacles, simStep_obstacles]
      calc (removeOffscreen ((movedObs s dtRaw r1 r2).map Prod.fst)).length
          ≤ ((movedObs s dtRaw r1 r2).map Prod.fst).length :=
            List.length_filter_le _ _
        _ = (spawnedObs s dtRaw r1 r2).length := by
            unfold movedObs
            simp
        _ ≤ s.obstacles.length + 1 := spawnedObs_length s dtRaw r1 r2
    · have hskip : s.running = false ∨ s.dead = true := by
        rcases Bool.eq_false_or_eq_true s.running with h | h
        · rcases Bool.eq_false_or_eq_true s.dead with h3 | h3
          · exact Or.inr h3
          · exact absurd ⟨h, h3⟩ hrun
        · exact Or.inl h
      rw [loop_skip s dtRaw r1 r2 hskip]
      exact Nat.le_succ _
  · intro hds
    rw [simStep_spawnTimer, if_pos hds]
  · intro hds
    rw [simStep_spawnTimer, if_neg (by simp [hds])]
  · unfold spawnObstacle
    exact Int.floor_nonneg.mpr (mul_nonneg h1 (by norm_num [LANES]))
  · unfold spawnObstacle
    dsimp only
    rw [show ((LANES : ℚ)) = ((LANES : ℤ) : ℚ) from rfl]
    refine Int.floor_lt.mpr ?_
    norm_num [LANES]
    linarith

/-- Witness for C10: a concrete frame from the mount state grows the
obstacle list by at most one. -/
theorem spawn_at_most_one_witness :
    (loop (initState 0) 1 (1/2) (1/2)).state.obstacles.length ≤
      (initState 0).obstacles.length + 1 :=
  (spawn_at_most_one (initState 0) 1 (1/2) (1/2) (by norm_num) (by norm_num)).1

/-- C6 as written fails on the code: the claim says every obstacle lying
entirely below the lower bound CANVAS_H is removed, but the filter keeps
an obstacle until its top exceeds CANVAS_H plus its own height.  This
obstacle has top 641, entirely below the 640-pixel canvas, yet the
removal pass keeps it. -/
theorem offscreen_removal_counterexample :
    CANVAS_H < (⟨0, 641, 72, 30, true⟩ : Obstacle).y ∧
    removeOffscreen [⟨0, 641, 72, 30, true⟩] = [⟨0, 641, 72, 30, true⟩] := by
  constructor
  · norm_num [CANVAS_H]
  · norm_num [removeOffscreen, List.filter, CANVAS_H]

/-- C6 amended: on every frame, exactly those obstacles whose top
position y has reached CANVAS_H + h (its own height below the lower
bound of the visible area) are removed from the active collection; all
other obstacles remain.  The second conjunct places the removal pass
inside the frame update. -/
theorem offscreen_removal_exact (obs : List Obstacle) (o : Obstacle) :
    (o ∈ removeOffscreen obs ↔ o ∈ obs ∧ o.y < CANVAS_H + o.h) ∧
    (∀ s dtRaw r1 r2, (simStep s dtRaw r1 r2).obstacles =
      removeOffscreen ((movedObs s dtRaw r1 r2).map Prod.fst)) := by
  refine ⟨?_, fun s dtRaw r1 r2 => rfl⟩
  simp [removeOffscreen, List.mem_filter]

theorem storage_doSpawn :
    doSpawn { initState 5 with obstacles := [⟨1, 550, 72, 30, true⟩] } 0 = false := by
  rw [doSpawn, decide_eq_false_iff_not]
  norm_num [simInterval, nextInterval, targetSpawn, simElapsed, clampDt, initState,
    MIN_SPAWN, BASE_SPAWN, SPAWN_DECAY, min_def]

theorem storage_moved :
    movedObs { initState 5 with obstacles := [⟨1, 550, 72, 30, true⟩] } 0 0 0 =
      [(⟨1, 550, 72, 30, true⟩, false)] := by
  rw [movedObs, spawnedObs, storage_doSpawn]
  norm_num [moveScore, initState, speedOf, simElapsed, clampDt, BASE_SPEED,
    SPEED_GROWTH, PLAYER_Y, CANVAS_H, min_def, List.map]

theorem storage_obstacles :
    (simStep { initState 5 with obstacles := [⟨1, 550, 72, 30, true⟩] }
      0 0 0).obstacles = [⟨1, 550, 72, 30, true⟩] := by
  rw [simStep_obstacles, storage_moved]
  norm_num [removeOffscreen, List.filter, CANVAS_H]

theorem storage_score :
    (simStep { initState 5 with obstacles := [⟨1, 550, 72, 30, true⟩] }
      0 0 0).score = 0 := by
  rw [simStep_score, storage_moved]
  norm_num [initState, List.countP, List.countP.go]

theorem storage_any :
    (simStep { initState 5 with obstacles := [⟨1, 550, 72, 30, true⟩] }
        0 0 0).obstacles.any
      (collides (simStep { initState 5 with
        obstacles := [⟨1, 550, 72, 30, true⟩] } 0 0 0).playerLane) = true := by
  rw [storage_obstacles, simStep_playerLane]
  norm_num [List.any, collides, overlapsPlayer, initState, PLAYER_Y, PLAYER_R, CANVAS_H]

/-- C7 fails on the code in two ways.  First, a stored value that is
nonempty but unparseable does not default to zero: parseInt on it gives
NaN (modelled as none), and the initializer returns that NaN.  Second,
the value is not written back exactly when a new best is achieved: it is
written on every run end, here with stored best 5 and final score 0, so
a write of 5 occurs although no new best was achieved. -/
theorem best_storage_counterexample :
    initBest (some "x") ≠ some 0 ∧
    (loop { initState 5 with obstacles := [⟨1, 550, 72, 30, true⟩] }
      0 0 0).persisted = some 5 ∧
    (loop { initState 5 with obstacles := [⟨1, 550, 72, 30, true⟩] }
      0 0 0).state.score = 0 := by
  refine ⟨?_, ?_, ?_⟩
  · rw [show initBest (some "x") = none from rfl]
    simp
  · rw [loop_sim _ 0 0 0 rfl rfl]
    dsimp only
    rw [collisionStep_hit _ _ storage_any]
    dsimp only
    rw [simStep_best]
    norm_num [initState]
  · rw [loop_sim _ 0 0 0 rfl rfl]
    dsimp only
    rw [collisionStep_hit _ _ storage_any]
    dsimp only
    exact storage_score

/-- C7 amended: at startup the best score is read once from persistent
storage under the fixed key; it defaults to zero when the stored value
is absent or empty (the falsy strings), while a nonempty unparseable
value yields the NaN result of parseInt rather than zero; and the value
max(storedBest, preFrameScore) is written back exactly when the run
ends, also on run ends that achieve no new best, where preFrameScore is
the score the collision handler reads: the closure value that excludes
increments queued during the dying frame itself. -/
theorem best_storage_behavior (v : String) (s : GameState) (dtRaw r1 r2 : ℚ)
    (hv : v ≠ "") (hr : s.running = true) (hd : s.dead = false) :
    initBest none = some 0 ∧
    initBest (some "") = some 0 ∧
    initBest (some v) = parseIntJS v ∧
    ((loop s dtRaw r1 r2).state.dead = true →
      (loop s dtRaw r1 r2).persisted = some (max s.best s.score)) ∧
    ((loop s dtRaw r1 r2).state.dead = false →
      (loop s dtRaw r1 r2).persisted = none) := by
  refine ⟨rfl, rfl, by simp [initBest, hv], ?_, ?_⟩ <;>
    rw [loop_sim s dtRaw r1 r2 hr hd] <;>
      dsimp only <;>
        cases hb : (simStep s dtRaw r1 r2).obstacles.any
          (collides (simStep s dtRaw r1 r2).playerLane)
  · rw [collisionStep_miss _ _ hb]
    intro hdd
    rw [simStep_dead, hd] at hdd
    simp at hdd
  · rw [collisionStep_hit _ _ hb]
    intro _
    rw [simStep_best]
  · rw [collisionStep_miss _ _ hb]
    intro _
    rfl
  · rw [collisionStep_hit _ _ hb]
    intro hdd
    simp at hdd

/-- Witness for the amended C7: the nonempty string case of the
initializer at the concrete stored value in the counterexample. -/
theorem best_storage_behavior_witness :
    initBest (some "x") = parseIntJS "x" :=
  (best_storage_behavior "x" (initState 0) 0 0 0 (by decide) rfl rfl).2.2.1

/-- Bounds of clamp. -/
theorem clamp_bounds (n lo hi : ℤ) (h : lo ≤ hi) :
    lo ≤ clamp n lo hi ∧ clamp n lo hi ≤ hi :=
  ⟨le_max_left _ _, max_le h (min_le_left _ _)⟩

/-- C8: For every sequence of lane-change inputs (any number of
consecutive decrements and increments, via pointer or keyboard), the
resulting player lane index stays within the range 0 to LANES - 1,
that is 0 to 2. -/
theorem lane_stays_in_range (l : ℤ) (inputs : List LaneInput)
    (h0 : 0 ≤ l) (h1 : l ≤ LANES - 1) :
    0 ≤ applyInputs l inputs ∧ applyInputs l inputs ≤ LANES - 1 := by
  induction inputs generalizing l with
  | nil => exact ⟨h0, h1⟩
  | cons i tl ih =>
    have hbd : 0 ≤ applyInput l i ∧ applyInput l i ≤ LANES - 1 := by
      cases i <;> exact clamp_bounds _ _ _ (by decide)
    exact ih (applyInput l i) hbd.1 hbd.2

/-- Witness for C8: from lane 1, three decrements stay in range. -/
theorem lane_stays_in_range_witness :
    0 ≤ applyInputs 1 [LaneInput.left, LaneInput.left, LaneInput.left] ∧
    applyInputs 1 [LaneInput.left, LaneInput.left, LaneInput.left] ≤ LANES - 1 :=
  lane_stays_in_range 1 _ (by decide) (by decide)

/-- C9: The restart operation, from any state, empties the obstacle
collection, resets speed to BASE_SPEED, spawn interval to BASE_SPAWN,
spawn timer and elapsed time to zero, clears the dead flag, resets the
score to zero, and sets the running flag to true. -/
theorem restart_resets (s : GameState) :
    (restart s).obstacles = [] ∧
    (restart s).speed = BASE_SPEED ∧
    (restart s).spawnInterval = BASE_SPAWN ∧
    (restart s).spawnTimer = 0 ∧
    (restart s).elapsed = 0 ∧
    (restart s).dead = false ∧
    (restart s).score = 0 ∧
    (restart s).running = true :=
  ⟨rfl, rfl, rfl, rfl, rfl, rfl, rfl, rfl⟩

end NeonLane
